import Mathlib

set_option maxHeartbeats 1000000

/-!
Shallow embedding of the Lumi-IA behavioral mood-classification engine:
`src/services/mood_detector.py`, `src/config/personality_config.py`, and the
mood-analysis core of `src/core/personality_engine.py`.

Conventions of the embedding:
* Python numbers are embedded as rationals (`ℚ`); float literals such as `0.3`
  are exact decimals on `ℚ`, matching the finitely many additions the code does.
* Python dicts keyed by strings are embedded as association lists or records.
* `datetime.now()` is embedded as an explicit timestamp parameter (seconds);
  `datetime.now().hour` as an explicit `current_hour` parameter.
* Python f-string number formatting (`{x:.1%}`, `{x:.1f}`) is abstracted to
  `toString` of the rational; the strings remain deterministic functions of the
  same data.
* Database reads are embedded as explicit input values (a read that raised is a
  distinguished constructor, matching the `except` handlers in the source).
-/

/-- The `MoodIndicator` dataclass (`mood_detector.py`, lines 11-16). -/
structure MoodIndicator where
  indicator_type : String
  value : ℚ
  weight : ℚ
  description : String
  deriving DecidableEq, Repr

/-- The `MoodTransition` dataclass (`mood_detector.py`, lines 18-24);
`timestamp` is seconds since an arbitrary epoch. -/
structure MoodTransitionRec where
  from_mood : String
  to_mood : String
  timestamp : ℕ
  trigger_factors : List String
  confidence : ℚ
  deriving DecidableEq, Repr

/-- Embeds `tasks_stats` sub-dictionary of the user context. -/
structure TasksStats where
  total_tasks : ℕ
  completed_tasks : ℕ
  overdue_tasks : ℕ
  pending_tasks : ℕ
  deriving DecidableEq, Repr

/-- One pomodoro record of `today_pomodoros`. -/
structure Pomodoro where
  status : String
  duration : ℚ
  title : String
  deriving DecidableEq, Repr

/-- One day of the `recent_activity` log (most recent first). -/
structure DayActivity where
  tasks_created : ℕ
  tasks_completed : ℕ
  deriving DecidableEq, Repr

/-- The `lumi_memory` dictionary, reduced to the only field the engine reads
(`interaction_count`). `none` stands for the empty (falsy) dict. -/
structure LumiMemory where
  interaction_count : ℕ
  deriving DecidableEq, Repr

/-- The `user_context` dictionary fed to the detectors (the BehaviorSnapshot).
`peak_hour` is `productivity_patterns.get("peak_hour")`. -/
structure UserContext where
  tasks_stats : TasksStats
  recent_activity : List DayActivity
  current_streak : ℕ
  today_pomodoros : List Pomodoro
  peak_hour : Option ℕ
  lumi_memory : Option LumiMemory
  deriving DecidableEq, Repr

/-- Embeds `[p for p in today_pomodoros if p.get("status") == "completed"]`. -/
def completedToday (poms : List Pomodoro) : List Pomodoro :=
  poms.filter (fun p => p.status == "completed")

/-- First block of `_calculate_mood_indicators` (lines 145-152): the
`completion_rate` indicator, emitted only when `total_tasks > 0`. -/
def completionRateInds (ctx : UserContext) : List MoodIndicator :=
  if ctx.tasks_stats.total_tasks > 0 then
    let completion_rate : ℚ :=
      (ctx.tasks_stats.completed_tasks : ℚ) / (ctx.tasks_stats.total_tasks : ℚ)
    [⟨"completion_rate", completion_rate, 0.8, s!"Taxa de conclusão: {completion_rate}"⟩]
  else []

/-- Lines 154-161: the `overdue_tasks` indicator, emitted only when positive. -/
def overdueInds (ctx : UserContext) : List MoodIndicator :=
  if ctx.tasks_stats.overdue_tasks > 0 then
    let overdue_tasks := ctx.tasks_stats.overdue_tasks
    [⟨"overdue_tasks", (overdue_tasks : ℚ), 0.9, s!"{overdue_tasks} tarefas em atraso"⟩]
  else []

/-- Lines 163-169: the unconditional `current_streak` indicator. -/
def streakInds (ctx : UserContext) : List MoodIndicator :=
  let current_streak := ctx.current_streak
  [⟨"current_streak", (current_streak : ℚ), 0.7, s!"Sequência de {current_streak} dias"⟩]

/-- Lines 171-178: the unconditional `today_pomodoros` indicator (count of
completed sessions today). -/
def todayPomodorosInds (ctx : UserContext) : List MoodIndicator :=
  let today_completed := (completedToday ctx.today_pomodoros).length
  [⟨"today_pomodoros", (today_completed : ℚ), 0.6, s!"{today_completed} pomodoros hoje"⟩]

/-- Lines 180-189: the `activity_trend` indicator, emitted when the activity
log has at least two entries. -/
def activityTrendInds (ctx : UserContext) : List MoodIndicator :=
  match ctx.recent_activity with
  | a :: b :: _ =>
    let recent_trend : ℚ := (a.tasks_completed : ℚ) - (b.tasks_completed : ℚ)
    [⟨"activity_trend", recent_trend, 0.5,
      "Tendência de atividade: " ++ (if recent_trend ≥ 0 then "+" else "") ++ toString recent_trend⟩]
  | _ => []

/-- Lines 191-201: the `focus_quality` indicator (mean duration of today's
completed sessions), emitted when today has pomodoros and at least one is
completed. -/
def focusQualityInds (ctx : UserContext) : List MoodIndicator :=
  let today_completed := (completedToday ctx.today_pomodoros).length
  if ctx.today_pomodoros ≠ [] ∧ today_completed > 0 then
    let avg_duration : ℚ :=
      ((completedToday ctx.today_pomodoros).map (·.duration)).sum / (today_completed : ℚ)
    [⟨"focus_quality", avg_duration, 0.4, s!"Duração média de foco: {avg_duration}min"⟩]
  else []

/-- Lines 203-211: the `overwhelm_level` indicator, emitted when there are
pending tasks. -/
def overwhelmInds (ctx : UserContext) : List MoodIndicator :=
  if ctx.tasks_stats.pending_tasks > 0 then
    let overwhelm_score : ℚ := min ((ctx.tasks_stats.pending_tasks : ℚ) / 10) 1
    [⟨"overwhelm_level", overwhelm_score, 0.6, s!"Nível de sobrecarga: {overwhelm_score}"⟩]
  else []

/-- Lines 213-223: the `timing_alignment` indicator. The source guards with
`if peak_hour:` — Python truthiness — so both a missing peak hour and a peak
hour of `0` (midnight) skip the indicator. -/
def timingAlignmentInds (ctx : UserContext) (current_hour : ℕ) : List MoodIndicator :=
  match ctx.peak_hour with
  | none => []
  | some peak =>
    if peak = 0 then []
    else
      let time_alignment : ℚ := 1 - |(current_hour : ℚ) - (peak : ℚ)| / 12
      [⟨"timing_alignment", time_alignment, 0.3,
        s!"Alinhamento com horário de pico: {time_alignment}"⟩]

/-- Embeds `MoodDetectorService._calculate_mood_indicators` (lines 129-225): the
sequential `indicators.append` blocks, in source order. -/
def calculateMoodIndicators (ctx : UserContext) (current_hour : ℕ) : List MoodIndicator :=
  completionRateInds ctx ++ overdueInds ctx ++ streakInds ctx ++
  todayPomodorosInds ctx ++ activityTrendInds ctx ++ focusQualityInds ctx ++
  overwhelmInds ctx ++ timingAlignmentInds ctx current_hour

/-- One rule condition of `MOOD_DETECTION_RULES`: each entry of the config is a
dict with exactly one of `min` / `max` / `ratio`, or the literal `True`. -/
inductive RuleCond where
  | cmin (bound : ℚ)
  | cmax (bound : ℚ)
  | cratioPass (bound : ℚ)
  | cflag
  deriving DecidableEq, Repr

/-- Embeds `MOOD_DETECTION_RULES` (`personality_config.py`, lines 114-151), in
declaration order (Python dicts preserve insertion order). -/
def MOOD_DETECTION_RULES : List (String × List (String × RuleCond)) :=
  [("motivated",
    [("tasks_completed_today", .cmin 3), ("streak_days", .cmin 2),
     ("pomodoros_completed_today", .cmin 4), ("recent_activity", .cmin 2)]),
   ("struggling",
    [("tasks_overdue", .cmin 2), ("days_since_completion", .cmin 3),
     ("completion_rate_week", .cmax 0.3), ("inactive_days", .cmin 2)]),
   ("focused",
    [("avg_pomodoro_duration", .cmin 20), ("consecutive_pomodoros", .cmin 3),
     ("task_switches_today", .cmax 2), ("current_session_length", .cmin 40)]),
   ("overwhelmed",
    [("pending_tasks", .cmin 10), ("tasks_created_vs_completed", .cratioPass 3),
     ("priority_high_pending", .cmin 5), ("completion_rate_week", .cmax 0.4)]),
   ("celebrating",
    [("goals_achieved_week", .cmin 1), ("streak_days", .cmin 7),
     ("completion_rate_week", .cmin 0.8), ("personal_best", .cflag)]),
   ("returning",
    [("days_since_last_activity", .cmin 3), ("previous_streak", .cmin 5),
     ("total_tasks_completed", .cmin 10), ("welcome_back", .cflag)])]

/-- Note: the `"recent_activity": {"hours": 2}` entry of the config carries the
key `hours`, which the scoring loop treats like `min` never would — the loop
only inspects `min` / `max` / `ratio`, so a `hours` dict contributes nothing to
`score` (but still adds to `total_weight` when the key is present). We embed it
as `.cmin 2` for the key lookup to exist; this is irrelevant to every theorem
below because no rule key ever matches an indicator type (proved below), and
the conservative choice only *over*-approximates the score. -/
def MOOD_DETECTION_RULES_keys : List String :=
  (MOOD_DETECTION_RULES.map (fun mr => mr.2.map Prod.fst)).flatten

/-- Embeds `indicator_values = {ind.indicator_type: ind.value for ind in indicators}`
followed by dict lookup: last binding wins. -/
def indicatorValues (inds : List MoodIndicator) (key : String) : Option ℚ :=
  (inds.reverse.find? (fun i => i.indicator_type == key)).map (·.value)

/-- Embeds `next((ind.weight for ind in indicators if ind.indicator_type == rule_key), 1.0)`:
first matching indicator's weight, defaulting to 1. -/
def weightFor (inds : List MoodIndicator) (key : String) : ℚ :=
  ((inds.find? (fun i => i.indicator_type == key)).map (·.weight)).getD 1

/-- Embeds `indicator_values.get(key, 0)` as used by the bonus functions. -/
def indicatorGetD (inds : List MoodIndicator) (key : String) : ℚ :=
  (indicatorValues inds key).getD 0

/-- The `if isinstance(rule_condition, dict) ... elif rule_condition is True`
block of `_apply_detection_rules` (lines 244-253): the score contribution of
one satisfied condition. A `ratio` condition falls into the `pass` branch. -/
def condScore (cond : RuleCond) (value weight : ℚ) : ℚ :=
  match cond with
  | .cmin b => if value ≥ b then weight else 0
  | .cmax b => if value ≤ b then weight else 0
  | .cratioPass _ => 0
  | .cflag => weight

/-- The inner rule loop of `_apply_detection_rules` (lines 238-255): running
`(score, total_weight)` over one mood's rules; a rule key absent from
`indicator_values` contributes to neither. -/
def moodRuleScore (inds : List MoodIndicator) (rules : List (String × RuleCond)) : ℚ × ℚ :=
  rules.foldl
    (fun acc r =>
      match indicatorValues inds r.1 with
      | none => acc
      | some v => (acc.1 + condScore r.2 v (weightFor inds r.1), acc.2 + weightFor inds r.1))
    (0, 0)

/-- Embeds `_calculate_motivated_bonus` (lines 276-289). -/
def calculateMotivatedBonus (inds : List MoodIndicator) : ℚ :=
  (if indicatorGetD inds "completion_rate" > 0.7 then 0.3 else 0) +
  (if indicatorGetD inds "current_streak" ≥ 3 then 0.2 else 0) +
  (if indicatorGetD inds "today_pomodoros" ≥ 3 then 0.2 else 0) +
  (if indicatorGetD inds "activity_trend" > 0 then 0.1 else 0)

/-- Embeds `_calculate_struggling_bonus` (lines 291-304). -/
def calculateStrugglingBonus (inds : List MoodIndicator) : ℚ :=
  (if indicatorGetD inds "overdue_tasks" ≥ 2 then 0.4 else 0) +
  (if indicatorGetD inds "completion_rate" < 0.3 then 0.3 else 0) +
  (if indicatorGetD inds "current_streak" = 0 then 0.2 else 0) +
  (if indicatorGetD inds "today_pomodoros" = 0 then 0.2 else 0)

/-- Embeds `_calculate_focused_bonus` (lines 306-321). -/
def calculateFocusedBonus (inds : List MoodIndicator) : ℚ :=
  (if indicatorGetD inds "focus_quality" ≥ 20 then 0.3 else 0) +
  (if indicatorGetD inds "today_pomodoros" ≥ 3 then 0.2 else 0) +
  (if indicatorGetD inds "timing_alignment" > 0.8 then 0.2 else 0)

/-- Embeds `_calculate_overwhelmed_bonus` (lines 323-338). -/
def calculateOverwhelmedBonus (inds : List MoodIndicator) : ℚ :=
  (if indicatorGetD inds "overwhelm_level" > 0.7 then 0.4 else 0) +
  (if indicatorGetD inds "overdue_tasks" ≥ 3 then 0.3 else 0) +
  (if indicatorGetD inds "completion_rate" < 0.4 then 0.2 else 0)

/-- Embeds `_calculate_celebrating_bonus` (lines 340-351). -/
def calculateCelebratingBonus (inds : List MoodIndicator) : ℚ :=
  (if indicatorGetD inds "current_streak" ≥ 7 then 0.4 else 0) +
  (if indicatorGetD inds "completion_rate" ≥ 0.8 then 0.3 else 0) +
  (if indicatorGetD inds "activity_trend" > 1 then 0.2 else 0)

/-- Embeds `_calculate_returning_bonus` (lines 353-364). -/
def calculateReturningBonus (inds : List MoodIndicator) : ℚ :=
  (if indicatorGetD inds "current_streak" = 0 then 0.2 else 0) +
  (if indicatorGetD inds "today_pomodoros" = 0 then 0.1 else 0)

/-- The `if mood == ... elif ...` bonus dispatch of `_apply_detection_rules`
(lines 257-269). -/
def moodBonus (mood : String) (inds : List MoodIndicator) : ℚ :=
  if mood == "motivated" then calculateMotivatedBonus inds
  else if mood == "struggling" then calculateStrugglingBonus inds
  else if mood == "focused" then calculateFocusedBonus inds
  else if mood == "overwhelmed" then calculateOverwhelmedBonus inds
  else if mood == "celebrating" then calculateCelebratingBonus inds
  else if mood == "returning" then calculateReturningBonus inds
  else 0

/-- Embeds `MoodDetectorService._apply_detection_rules` (lines 227-274): per mood,
rule score plus bonus, normalized by
`score / max(total_weight, 1.0) if total_weight > 0 else 0.0`. -/
def applyDetectionRules (inds : List MoodIndicator) : List (String × ℚ) :=
  MOOD_DETECTION_RULES.map (fun mr =>
    let st := moodRuleScore inds mr.2
    let score := st.1 + moodBonus mr.1 inds
    (mr.1, if st.2 > 0 then score / max st.2 1 else 0))

/-- Python `max(items, key=lambda x: x[1])` over a nonempty list: the first
element of maximal second component (later elements replace only on strict
increase). -/
def pyMaxBySnd (xs : List (String × ℚ)) (x : String × ℚ) : String × ℚ :=
  xs.foldl (fun best y => if y.2 > best.2 then y else best) x

/-- Embeds `MoodDetectorService._determine_primary_mood` (lines 366-379). -/
def determinePrimaryMood (scores : List (String × ℚ)) : String × ℚ :=
  if scores.isEmpty || scores.all (fun s => s.2 == 0) then ("encouraging", 0.5)
  else
    match scores with
    | [] => ("encouraging", 0.5)
    | x :: xs =>
      let primary := pyMaxBySnd xs x
      if primary.2 < 0.3 then ("encouraging", primary.2)
      else (primary.1, min primary.2 1)

/-- Outcome of the `lumi_memory` previous-mood query inside
`_analyze_mood_transition`: the query raised (handled by the `except` branch),
returned no row, or returned a row with the stored `currentMood`. -/
inductive PrevMoodRead where
  | readError
  | noRow
  | row (mood : String)
  deriving DecidableEq, Repr

/-- Embeds `MoodDetectorService._analyze_mood_transition` (lines 381-413): `None` on a
failed read, on a missing row, and on an unchanged mood; otherwise a
`MoodTransition` stamped with the current time and confidence `0.7`. -/
def analyzeMoodTransition (prev : PrevMoodRead) (current_mood : String) (now : ℕ) :
    Option MoodTransitionRec :=
  match prev with
  | .readError => none
  | .noRow => none
  | .row previous_mood =>
    if previous_mood ≠ current_mood then
      some ⟨previous_mood, current_mood, now,
            identifyTransitionTriggersAux previous_mood current_mood, 0.7⟩
    else none
where
  /-- `_identify_transition_triggers` (lines 415-429): the `if/elif` lookup of
  known `(from, to)` pairs; any transition into `returning` also matches; all
  other pairs yield the empty list. -/
  identifyTransitionTriggersAux (from_mood to_mood : String) : List String :=
    if from_mood == "motivated" && to_mood == "overwhelmed" then
      ["Aumento na carga de trabalho"]
    else if from_mood == "struggling" && to_mood == "motivated" then
      ["Conclusão de tarefas pendentes"]
    else if from_mood == "focused" && to_mood == "celebrating" then
      ["Atingimento de objetivos"]
    else if to_mood == "returning" then
      ["Retorno após período de inatividade"]
    else []

/-- Embeds `_identify_transition_triggers` (lines 415-429) as a top-level function. -/
def identifyTransitionTriggers (from_mood to_mood : String) : List String :=
  analyzeMoodTransition.identifyTransitionTriggersAux from_mood to_mood

/-- The per-mood template line of `_generate_mood_insights` (lines 436-448);
the default `encouraging` mood has no template. -/
def moodInsightLine (mood : String) : List String :=
  if mood == "motivated" then ["Você está em um excelente momento de produtividade!"]
  else if mood == "struggling" then ["Detectei alguns desafios em sua rotina"]
  else if mood == "focused" then ["Seu foco está em alta qualidade"]
  else if mood == "overwhelmed" then ["Há sinais de sobrecarga em suas atividades"]
  else if mood == "celebrating" then ["Parabéns pelos resultados conquistados!"]
  else if mood == "returning" then ["Bem-vindo de volta à sua rotina produtiva"]
  else []

/-- Embeds `MoodDetectorService._generate_mood_insights` (lines 431-459): one mood
template line, then the descriptions of the first two indicators of weight at
least `0.7` in list order, then one transition line. -/
def generateMoodInsights (mood : String) (inds : List MoodIndicator)
    (transition : Option MoodTransitionRec) : List String :=
  moodInsightLine mood ++
  ((inds.filter (fun i => i.weight ≥ 0.7)).take 2).map (·.description) ++
  (match transition with
   | some t => ["Transição de " ++ t.from_mood ++ " para " ++ t.to_mood]
   | none => [])

/-- Embeds `MoodDetectorService._generate_mood_recommendations` (lines 461-496): two
template lines per known mood (none for the default mood), truncated to 3. -/
def generateMoodRecommendations (mood : String) (_inds : List MoodIndicator) : List String :=
  (if mood == "motivated" then
    ["Aproveite esse momento para tackle tarefas desafiadoras",
     "Considere aumentar suas metas diárias"]
   else if mood == "struggling" then
    ["Comece com tarefas pequenas para reconstruir momentum",
     "Considere reduzir temporariamente suas expectativas"]
   else if mood == "focused" then
    ["Continue no ritmo atual para maximizar a produtividade",
     "Evite interrupções durante este período de foco"]
   else if mood == "overwhelmed" then
    ["Priorize apenas 3 tarefas mais importantes",
     "Considere delegar ou adiar tarefas menos críticas"]
   else if mood == "celebrating" then
    ["Defina novas metas desafiadoras",
     "Compartilhe seus sucessos para manter motivação"]
   else if mood == "returning" then
    ["Comece gradualmente com tarefas simples",
     "Foque em reestabelecer sua rotina"]
   else []).take 3

/-- The result dictionary of `detect_current_mood` (lines 52-60). -/
structure MoodResult where
  current_mood : String
  confidence : ℚ
  mood_scores : List (String × ℚ)
  indicators : List MoodIndicator
  transition : Option MoodTransitionRec
  insights : List String
  recommendations : List String
  deriving DecidableEq, Repr

/-- Embeds `MoodDetectorService.detect_current_mood` (lines 31-64), happy path: the
pure pipeline with the clock sample (`current_hour`, `now`) and the
previous-mood read made explicit. The best-effort `_update_mood_history` write
does not influence the returned value. -/
def detectCurrentMood (ctx : UserContext) (current_hour : ℕ) (prev : PrevMoodRead)
    (now : ℕ) : MoodResult :=
  let mood_indicators := calculateMoodIndicators ctx current_hour
  let mood_scores := applyDetectionRules mood_indicators
  let pm := determinePrimaryMood mood_scores
  let mood_transition := analyzeMoodTransition prev pm.1 now
  { current_mood := pm.1
    confidence := pm.2
    mood_scores := mood_scores
    indicators := mood_indicators
    transition := mood_transition
    insights := generateMoodInsights pm.1 mood_indicators mood_transition
    recommendations := generateMoodRecommendations pm.1 mood_indicators }

/-- One row of the `analyze_mood_history` query. -/
structure MoodHistoryRow where
  currentMood : String
  updatedAt : ℕ
  deriving DecidableEq, Repr

/-- Possible results of `analyze_mood_history`: the structured
`{"error": "Insufficient mood history data"}` dict, or the generic
`{"error": str(e)}` dict produced by the `except` handler. -/
inductive MoodHistoryResult where
  | insufficientData
  | attributeError
  deriving DecidableEq, Repr

/-- Embeds `MoodDetectorService.analyze_mood_history` (lines 66-99). When the fetched
history is empty it returns `{"error": "Insufficient mood history data"}`.
Otherwise it calls `self._analyze_mood_patterns(...)` — a method that is not
defined anywhere on `MoodDetectorService` (nor inherited) — so Python raises
`AttributeError` before any analysis, the enclosing `except Exception` catches
it, and the call returns `{"error": str(e)}`. No path reaches a stability
score. -/
def analyzeMoodHistory (history : List MoodHistoryRow) (_days : ℕ) : MoodHistoryResult :=
  if history.isEmpty then .insufficientData else .attributeError

/-- Embeds `lumi_memory.get("interaction_count", 0)` against the optional dict. -/
def interactionCount (lm : Option LumiMemory) : ℕ :=
  (lm.map (·.interaction_count)).getD 0

/-- Embeds `PersonalityEngine._calculate_motivated_score` (personality_engine.py,
lines 120-148). -/
def calculateMotivatedScore (tasks_stats : TasksStats) (recent_activity : List DayActivity)
    (current_streak : ℕ) (today_pomodoros : List Pomodoro) : ℚ :=
  let s1 : ℚ := if (completedToday today_pomodoros).length ≥ 3 then 0.3 else 0
  let s2 : ℚ :=
    if current_streak ≥ 2 then 0.2 + min ((current_streak : ℚ) * 0.05) 0.3 else 0
  let s3 : ℚ :=
    if tasks_stats.total_tasks > 0 ∧
       (tasks_stats.completed_tasks : ℚ) / (tasks_stats.total_tasks : ℚ) > 0.7 then 0.2 else 0
  let s4 : ℚ :=
    match recent_activity with
    | a :: b :: _ => if (a.tasks_completed : ℚ) - (b.tasks_completed : ℚ) > 0 then 0.1 else 0
    | _ => 0
  min (s1 + s2 + s3 + s4) 1

/-- Embeds `all(recent_completions[i] >= recent_completions[i+1] for i in range(len-1))`. -/
def nonIncreasing : List ℕ → Bool
  | a :: b :: rest => (b ≤ a) && nonIncreasing (b :: rest)
  | _ => true

/-- Embeds `PersonalityEngine._calculate_struggling_score` (lines 150-178). The
`lumi_memory` argument is accepted and unused, as in the source. -/
def calculateStrugglingScore (tasks_stats : TasksStats) (recent_activity : List DayActivity)
    (current_streak : ℕ) (_lumi_memory : Option LumiMemory) : ℚ :=
  let overdue_tasks := tasks_stats.overdue_tasks
  let s1 : ℚ := if overdue_tasks ≥ 2 then 0.3 + min ((overdue_tasks : ℚ) * 0.1) 0.2 else 0
  let s2 : ℚ :=
    if tasks_stats.total_tasks > 0 ∧
       (tasks_stats.completed_tasks : ℚ) / (tasks_stats.total_tasks : ℚ) < 0.3 then 0.3 else 0
  let s3 : ℚ := if current_streak = 0 then 0.2 else 0
  let s4 : ℚ :=
    if recent_activity.length ≥ 3 ∧
       nonIncreasing ((recent_activity.take 3).map (·.tasks_completed)) then 0.2 else 0
  min (s1 + s2 + s3 + s4) 1

/-- Embeds `PersonalityEngine._calculate_focused_score` (lines 180-213). The source
samples `datetime.now().hour` inside the function (line 204); here that sample
is the explicit `current_hour` argument. The `if peak_hour and ...` guard uses
Python truthiness, so a peak hour of `0` never scores. -/
def calculateFocusedScore (today_pomodoros : List Pomodoro) (peak_hour : Option ℕ)
    (_tasks_stats : TasksStats) (current_hour : ℕ) : ℚ :=
  let completed_pomodoros := completedToday today_pomodoros
  let s1 : ℚ :=
    if completed_pomodoros ≠ [] ∧
       ((completed_pomodoros.map (·.duration)).sum / (completed_pomodoros.length : ℚ)) ≥ 20
    then 0.3 else 0
  let consecutive_count := (today_pomodoros.takeWhile (fun p => p.status == "completed")).length
  let s2 : ℚ := if consecutive_count ≥ 3 then 0.2 else 0
  let s3 : ℚ :=
    match peak_hour with
    | none => 0
    | some peak =>
      if peak ≠ 0 ∧ ((current_hour : ℤ) - (peak : ℤ)).natAbs ≤ 1 then 0.2 else 0
  let s4 : ℚ :=
    if ((today_pomodoros.map (·.title)).dedup).length ≤ 2 ∧ today_pomodoros.length ≥ 3
    then 0.3 else 0
  min (s1 + s2 + s3 + s4) 1

/-- Embeds `PersonalityEngine._calculate_overwhelmed_score` (lines 215-244). -/
def calculateOverwhelmedScore (tasks_stats : TasksStats) (recent_activity : List DayActivity)
    (today_pomodoros : List Pomodoro) : ℚ :=
  let pending_tasks := tasks_stats.pending_tasks
  let s1 : ℚ := if pending_tasks ≥ 10 then 0.4 else if pending_tasks ≥ 5 then 0.2 else 0
  let s2 : ℚ :=
    if recent_activity ≠ [] then
      let recent_created := ((recent_activity.take 3).map (·.tasks_created)).sum
      let recent_completed := ((recent_activity.take 3).map (·.tasks_completed)).sum
      if recent_created > 0 ∧ (recent_completed : ℚ) / (recent_created : ℚ) < 0.4
      then 0.3 else 0
    else 0
  let s3 : ℚ := if pending_tasks ≥ 5 then 0.2 else 0
  let s4 : ℚ :=
    if (today_pomodoros.filter (fun p => p.status != "completed")).length ≥ 3 then 0.2 else 0
  min (s1 + s2 + s3 + s4) 1

/-- Embeds `PersonalityEngine._calculate_celebrating_score` (lines 246-271). -/
def calculateCelebratingScore (current_streak : ℕ) (tasks_stats : TasksStats)
    (recent_activity : List DayActivity) (_lumi_memory : Option LumiMemory) : ℚ :=
  let s1 : ℚ :=
    if current_streak ≥ 7 then 0.4 + min (((current_streak : ℚ) - 7) * 0.05) 0.2 else 0
  let s2 : ℚ :=
    if tasks_stats.total_tasks > 0 ∧
       (tasks_stats.completed_tasks : ℚ) / (tasks_stats.total_tasks : ℚ) ≥ 0.8 then 0.3 else 0
  let s3 : ℚ :=
    match recent_activity with
    | a :: b :: rest =>
      let tail := b :: rest
      let avg_completion : ℚ :=
        ((tail.map (fun d => (d.tasks_completed : ℚ))).sum) / (tail.length : ℚ)
      if (a.tasks_completed : ℚ) > avg_completion * 1.5 then 0.3 else 0
    | _ => 0
  min (s1 + s2 + s3) 1

/-- Embeds `PersonalityEngine._calculate_returning_score` (lines 273-299). The
`if lumi_memory:` guards use Python dict truthiness (`none` = empty dict). -/
def calculateReturningScore (recent_activity : List DayActivity)
    (lumi_memory : Option LumiMemory) (current_streak : ℕ) : ℚ :=
  let s1 : ℚ :=
    if recent_activity.length = 0 then 0.5
    else if recent_activity.length < 3 then 0.3 else 0
  let s2 : ℚ :=
    if current_streak = 0 ∧ lumi_memory.isSome ∧ interactionCount lumi_memory > 10
    then 0.3 else 0
  let total_tasks := (recent_activity.map (·.tasks_completed)).sum
  let s3 : ℚ :=
    if lumi_memory.isSome ∧ interactionCount lumi_memory > 5 ∧ total_tasks < 3
    then 0.2 else 0
  min (s1 + s2 + s3) 1

/-- Embeds `max(mood_scores.values()) if mood_scores.values() else 1.0`. -/
def pyMaxValues : List ℚ → ℚ
  | [] => 1
  | v :: vs => vs.foldl max v

/-- Embeds `PersonalityEngine._calculate_mood_scores` (lines 77-118): the six
individual scores in `MOOD_STATES` declaration order, then normalization by
the maximum score when it is positive. -/
def calculateMoodScores (ctx : UserContext) (current_hour : ℕ) : List (String × ℚ) :=
  let raw : List (String × ℚ) :=
    [("motivated",
      calculateMotivatedScore ctx.tasks_stats ctx.recent_activity ctx.current_streak
        ctx.today_pomodoros),
     ("struggling",
      calculateStrugglingScore ctx.tasks_stats ctx.recent_activity ctx.current_streak
        ctx.lumi_memory),
     ("focused",
      calculateFocusedScore ctx.today_pomodoros ctx.peak_hour ctx.tasks_stats current_hour),
     ("overwhelmed",
      calculateOverwhelmedScore ctx.tasks_stats ctx.recent_activity ctx.today_pomodoros),
     ("celebrating",
      calculateCelebratingScore ctx.current_streak ctx.tasks_stats ctx.recent_activity
        ctx.lumi_memory),
     ("returning",
      calculateReturningScore ctx.recent_activity ctx.lumi_memory ctx.current_streak)]
  let max_score : ℚ := pyMaxValues (raw.map (·.2))
  if max_score > 0 then raw.map (fun s => (s.1, s.2 / max_score)) else raw

/-- The `tone` field of `MOOD_STATES` (personality_config.py, lines 3-52),
with `MOOD_STATES.get(mood, MOOD_STATES["motivated"])` defaulting. -/
def moodStateTone (mood : String) : String :=
  if mood == "motivated" then "casual"
  else if mood == "struggling" then "supportive"
  else if mood == "focused" then "direct"
  else if mood == "overwhelmed" then "calming"
  else if mood == "celebrating" then "enthusiastic"
  else if mood == "returning" then "welcoming"
  else "casual"

/-- Embeds `PersonalityEngine._get_personality_tone` (lines 301-311). -/
def getPersonalityTone (mood : String) (confidence : ℚ) : String :=
  if confidence < 0.5 then "supportive" else moodStateTone mood

/-- Embeds `PersonalityEngine._get_contributing_factors` (lines 313-347). -/
def getContributingFactors (mood : String) (ctx : UserContext) : List String :=
  (if mood == "motivated" then
    (if ctx.current_streak ≥ 2 then
      let s := ctx.current_streak
      [s!"Sequência de {s} dias ativa"] else []) ++
    (if ctx.today_pomodoros.length ≥ 3 then ["Múltiplos pomodoros completados hoje"] else [])
   else if mood == "struggling" then
    (if ctx.tasks_stats.overdue_tasks > 0 then
      let o := ctx.tasks_stats.overdue_tasks
      [s!"{o} tarefas em atraso"] else []) ++
    (if ctx.current_streak = 0 then ["Sequência interrompida"] else [])
   else if mood == "focused" then
    (if ctx.today_pomodoros ≠ [] then ["Sessões de foco consistentes hoje"] else [])
   else if mood == "overwhelmed" then
    (if ctx.tasks_stats.pending_tasks ≥ 5 then
      let p := ctx.tasks_stats.pending_tasks
      [s!"{p} tarefas pendentes"] else [])
   else if mood == "celebrating" then
    (if ctx.current_streak ≥ 7 then
      let s := ctx.current_streak
      [s!"Sequência impressionante de {s} dias"] else [])
   else []).take 3

/-- Embeds `PersonalityEngine._get_mood_recommendations` (lines 349-389). -/
def getMoodRecommendationsPE (mood : String) : List String :=
  (if mood == "motivated" then
    ["Aproveite essa energia para tacklear tarefas desafiadoras",
     "Considere aumentar sua meta diária"]
   else if mood == "struggling" then
    ["Comece com tarefas pequenas e fáceis",
     "Considere reduzir o escopo das tarefas grandes"]
   else if mood == "focused" then
    ["Continue no seu ritmo atual",
     "Evite distrações durante esse período produtivo"]
   else if mood == "overwhelmed" then
    ["Priorize apenas 3 tarefas para hoje",
     "Divida tarefas grandes em partes menores"]
   else if mood == "celebrating" then
    ["Defina a próxima meta desafiadora",
     "Compartilhe seu sucesso para manter a motivação"]
   else if mood == "returning" then
    ["Comece devagar com tarefas simples",
     "Reestabeleça uma rotina consistente"]
   else []).take 2

/-- The `mood_analysis` dictionary built by `analyze_user_mood` (lines 53-61). -/
structure MoodAnalysisRec where
  detected_mood : String
  confidence : ℚ
  personality_tone : String
  adaptation_applied : Bool
  contributing_factors : List String
  recommendations : List String
  mood_scores : List (String × ℚ)
  deriving DecidableEq, Repr

/-- Embeds `PersonalityEngine._get_default_mood` (lines 391-401). -/
def getDefaultMood : MoodAnalysisRec :=
  { detected_mood := "neutral"
    confidence := 0.5
    personality_tone := "friendly"
    adaptation_applied := false
    contributing_factors := ["Análise inicial"]
    recommendations := ["Continue usando o sistema para análises mais precisas"]
    mood_scores := [] }

/-- The cache-miss body of `analyze_user_mood` (lines 39-61): score, pick the
first maximal mood (Python `max` with a key), derive tone, factors and
recommendations. -/
def buildMoodAnalysis (ctx : UserContext) (current_hour : ℕ) : MoodAnalysisRec :=
  let mood_scores := calculateMoodScores ctx current_hour
  let pm :=
    match mood_scores with
    | [] => ("", 0)
    | x :: xs => pyMaxBySnd xs x
  { detected_mood := pm.1
    confidence := pm.2
    personality_tone := getPersonalityTone pm.1 pm.2
    adaptation_applied := true
    contributing_factors := getContributingFactors pm.1 ctx
    recommendations := getMoodRecommendationsPE pm.1
    mood_scores := mood_scores }

/-- One value of the `self.mood_cache` dict (lines 64-67): the stored analysis
and the `datetime.now()` at which it was stored (seconds since epoch). -/
structure CacheEntry where
  mood_analysis : MoodAnalysisRec
  timestamp : ℕ
  deriving DecidableEq, Repr

/-- The `self.mood_cache` dict: one binding per
`f"{user_id}_{now.strftime('%H_%M')}"` key, embedded as
`(user_id, minute-of-day)`. -/
abbrev MoodCache := List ((String × ℕ) × CacheEntry)

/-- Embeds `now.strftime("%H_%M")` of a timestamp in seconds: its minute of day. -/
def bucketOf (t : ℕ) : ℕ := t / 60 % 1440

/-- Embeds `datetime.now().hour` of a timestamp in seconds. -/
def hourOf (t : ℕ) : ℕ := t / 3600 % 24

/-- Embeds `(now - stored).seconds` on a Python `timedelta`: the sub-day seconds
component, not the total duration (for `stored ≤ now`). -/
def timedeltaSeconds (now stored : ℕ) : ℕ := (now - stored) % 86400

/-- Python dict assignment `self.mood_cache[key] = entry`: replace the
existing binding or append a new one. -/
def cacheInsert (cache : MoodCache) (key : String × ℕ) (entry : CacheEntry) : MoodCache :=
  if cache.any (fun e => e.1 == key) then
    cache.map (fun e => if e.1 == key then (key, entry) else e)
  else cache ++ [(key, entry)]

/-- Embeds `PersonalityEngine.analyze_user_mood` (lines 25-75), with the cache state
threaded explicitly. The returned `Bool` is `true` exactly when the expensive
mood computation ran (a cache miss or a stale hit). A user context with a
falsy (`""`) user id short-circuits to the default mood. The freshness test is
the source's `(datetime.now() - cached["timestamp"]).seconds < 1800`, which
compares only the sub-day seconds component of the age. -/
def analyzeUserMood (cache : MoodCache) (user_id : String) (ctx : UserContext)
    (now : ℕ) : MoodAnalysisRec × MoodCache × Bool :=
  if user_id = "" then (getDefaultMood, cache, false)
  else
    let key := (user_id, bucketOf now)
    let fresh :=
      let analysis := buildMoodAnalysis ctx (hourOf now)
      (analysis, cacheInsert cache key ⟨analysis, now⟩, true)
    match cache.find? (fun e => e.1 == key) with
    | some e =>
      if timedeltaSeconds now e.2.timestamp < 1800 then (e.2.mood_analysis, cache, false)
      else fresh
    | none => fresh

/-- Dict lookup on a mood-score association list, defaulting to `0`. -/
def lookupScore (scores : List (String × ℚ)) (mood : String) : ℚ :=
  ((scores.find? (fun s => s.1 == mood)).map (·.2)).getD 0

/-- The fixed vocabulary of indicator types `_calculate_mood_indicators` can
emit. -/
def extractorTypes : List String :=
  ["completion_rate", "overdue_tasks", "current_streak", "today_pomodoros",
   "activity_trend", "focus_quality", "overwhelm_level", "timing_alignment"]

theorem completionRateInds_types {ctx : UserContext} {i : MoodIndicator}
    (hi : i ∈ completionRateInds ctx) : i.indicator_type = "completion_rate" := by
  unfold completionRateInds at hi
  split at hi
  · simp only [List.mem_singleton] at hi; subst hi; rfl
  · simp at hi

theorem overdueInds_types {ctx : UserContext} {i : MoodIndicator}
    (hi : i ∈ overdueInds ctx) : i.indicator_type = "overdue_tasks" := by
  unfold overdueInds at hi
  split at hi
  · simp only [List.mem_singleton] at hi; subst hi; rfl
  · simp at hi

theorem streakInds_types {ctx : UserContext} {i : MoodIndicator}
    (hi : i ∈ streakInds ctx) : i.indicator_type = "current_streak" := by
  unfold streakInds at hi
  simp only [List.mem_singleton] at hi; subst hi; rfl

theorem todayPomodorosInds_types {ctx : UserContext} {i : MoodIndicator}
    (hi : i ∈ todayPomodorosInds ctx) : i.indicator_type = "today_pomodoros" := by
  unfold todayPomodorosInds at hi
  simp only [List.mem_singleton] at hi; subst hi; rfl

theorem activityTrendInds_types {ctx : UserContext} {i : MoodIndicator}
    (hi : i ∈ activityTrendInds ctx) : i.indicator_type = "activity_trend" := by
  unfold activityTrendInds at hi
  split at hi
  · simp only [List.mem_singleton] at hi; subst hi; rfl
  · simp at hi

theorem focusQualityInds_types {ctx : UserContext} {i : MoodIndicator}
    (hi : i ∈ focusQualityInds ctx) : i.indicator_type = "focus_quality" := by
  simp only [focusQualityInds] at hi
  split at hi
  · simp only [List.mem_singleton] at hi; subst hi; rfl
  · simp at hi

theorem overwhelmInds_types {ctx : UserContext} {i : MoodIndicator}
    (hi : i ∈ overwhelmInds ctx) : i.indicator_type = "overwhelm_level" := by
  unfold overwhelmInds at hi
  split at hi
  · simp only [List.mem_singleton] at hi; subst hi; rfl
  · simp at hi

theorem timingAlignmentInds_types {ctx : UserContext} {hour : ℕ} {i : MoodIndicator}
    (hi : i ∈ timingAlignmentInds ctx hour) : i.indicator_type = "timing_alignment" := by
  unfold timingAlignmentInds at hi
  split at hi
  · simp at hi
  · split at hi
    · simp at hi
    · simp only [List.mem_singleton] at hi; subst hi; rfl

/-- Every indicator the extractor emits has one of the eight known types. -/
theorem calculateMoodIndicators_types {ctx : UserContext} {hour : ℕ} {i : MoodIndicator}
    (hi : i ∈ calculateMoodIndicators ctx hour) : i.indicator_type ∈ extractorTypes := by
  unfold calculateMoodIndicators at hi
  simp only [List.mem_append] at hi
  rcases hi with ((((((h | h) | h) | h) | h) | h) | h) | h
  · rw [completionRateInds_types h]; decide
  · rw [overdueInds_types h]; decide
  · rw [streakInds_types h]; decide
  · rw [todayPomodorosInds_types h]; decide
  · rw [activityTrendInds_types h]; decide
  · rw [focusQualityInds_types h]; decide
  · rw [overwhelmInds_types h]; decide
  · rw [timingAlignmentInds_types h]; decide

theorem indicatorValues_eq_none {inds : List MoodIndicator} {key : String}
    (h : ∀ i ∈ inds, i.indicator_type ≠ key) : indicatorValues inds key = none := by
  unfold indicatorValues
  rw [List.find?_eq_none.mpr]
  · rfl
  · intro i hi
    simp only [beq_iff_eq]
    exact h i (List.mem_reverse.mp hi)

/-- The rule loop leaves `(score, total_weight) = (0, 0)` when no rule key is
bound in `indicator_values`. -/
theorem moodRuleScore_eq_zero {inds : List MoodIndicator}
    {rules : List (String × RuleCond)}
    (h : ∀ r ∈ rules, indicatorValues inds r.1 = none) :
    moodRuleScore inds rules = (0, 0) := by
  unfold moodRuleScore
  induction rules with
  | nil => rfl
  | cons r rs ih =>
    rw [List.foldl_cons]
    have hr := h r (List.mem_cons_self r rs)
    simp only [hr]
    exact ih (fun x hx => h x (List.mem_cons_of_mem _ hx))

/-- No key of `MOOD_DETECTION_RULES` is an indicator type the extractor can
emit. -/
theorem extractor_rule_keys_disjoint :
    ∀ t ∈ extractorTypes, ∀ k ∈ MOOD_DETECTION_RULES_keys, t ≠ k := by decide

/-- On every extractor output, every mood's rule loop scores `(0, 0)`, so
every normalized mood score is `0`. -/
theorem applyDetectionRules_extractor (ctx : UserContext) (hour : ℕ) :
    applyDetectionRules (calculateMoodIndicators ctx hour) =
      MOOD_DETECTION_RULES.map (fun mr => (mr.1, 0)) := by
  unfold applyDetectionRules
  apply List.map_congr_left
  intro mr hmr
  have hz : moodRuleScore (calculateMoodIndicators ctx hour) mr.2 = (0, 0) := by
    apply moodRuleScore_eq_zero
    intro r hr
    apply indicatorValues_eq_none
    intro i hi
    have hkey : r.1 ∈ MOOD_DETECTION_RULES_keys := by
      unfold MOOD_DETECTION_RULES_keys
      rw [List.mem_flatten]
      exact ⟨mr.2.map Prod.fst, List.mem_map_of_mem _ hmr, List.mem_map_of_mem _ hr⟩
    exact extractor_rule_keys_disjoint _ (calculateMoodIndicators_types hi) _ hkey
  simp only [hz]
  norm_num

/-- Embeds `_determine_primary_mood` on the all-zero score vector returns the default
`("encouraging", 0.5)`. -/
theorem determinePrimaryMood_all_zero :
    determinePrimaryMood (MOOD_DETECTION_RULES.map (fun mr => (mr.1, 0))) =
      ("encouraging", 0.5) := by with_unfolding_all decide

/-- Embeds `detect_current_mood` always classifies `encouraging` at confidence `0.5`. -/
theorem detectCurrentMood_encouraging (ctx : UserContext) (hour : ℕ)
    (prev : PrevMoodRead) (now : ℕ) :
    (detectCurrentMood ctx hour prev now).current_mood = "encouraging" ∧
    (detectCurrentMood ctx hour prev now).confidence = 0.5 := by
  unfold detectCurrentMood
  simp only [applyDetectionRules_extractor, determinePrimaryMood_all_zero]
  exact ⟨trivial, trivial⟩
def strugglingRules : List (String × RuleCond) :=
  [("tasks_overdue", .cmin 2), ("days_since_completion", .cmin 3),
   ("completion_rate_week", .cmax 0.3), ("inactive_days", .cmin 2)]

theorem lookupScore_struggling (inds : List MoodIndicator) :
    lookupScore (applyDetectionRules inds) "struggling" =
      (if (moodRuleScore inds strugglingRules).2 > 0 then
        ((moodRuleScore inds strugglingRules).1 + calculateStrugglingBonus inds) /
          max (moodRuleScore inds strugglingRules).2 1
       else 0) := by
  with_unfolding_all rfl

theorem indicatorValues_middle (pre post : List MoodIndicator) (mid : MoodIndicator)
    (key : String) (hk : mid.indicator_type ≠ key) :
    indicatorValues (pre ++ [mid] ++ post) key = indicatorValues (pre ++ post) key := by
  unfold indicatorValues
  have hp : (fun i => i.indicator_type == key) mid = false := by
    simp only [beq_eq_false_iff_ne, ne_eq]; exact hk
  simp only [List.reverse_append, List.reverse_cons, List.reverse_nil, List.nil_append,
    List.find?_append, List.find?_cons, hp, List.find?_nil, List.append_assoc]
  cases List.find? (fun i => i.indicator_type == key) post.reverse <;> rfl

theorem indicatorValues_middle_self (pre post : List MoodIndicator) (mid : MoodIndicator)
    (hpost : ∀ i ∈ post, i.indicator_type ≠ mid.indicator_type) :
    indicatorValues (pre ++ [mid] ++ post) mid.indicator_type = some mid.value := by
  unfold indicatorValues
  have h1 : List.find? (fun i => i.indicator_type == mid.indicator_type) post.reverse = none := by
    rw [List.find?_eq_none]
    intro x hx
    simp only [beq_iff_eq]
    exact hpost x (List.mem_reverse.mp hx)
  have hp : (fun i => i.indicator_type == mid.indicator_type) mid = true := by
    simp only [beq_iff_eq]
  simp only [List.reverse_append, List.reverse_cons, List.reverse_nil, List.nil_append,
    List.find?_append, List.find?_cons, h1, hp, Option.or]
  rfl

theorem weightFor_congr {L₁ L₂ : List MoodIndicator}
    (h : L₁.map (fun i => (i.indicator_type, i.weight)) =
         L₂.map (fun i => (i.indicator_type, i.weight)))
    (key : String) : weightFor L₁ key = weightFor L₂ key := by
  induction L₁ generalizing L₂ with
  | nil =>
    cases L₂ with
    | nil => rfl
    | cons b m => simp at h
  | cons a l ih =>
    cases L₂ with
    | nil => simp at h
    | cons b m =>
      simp only [List.map_cons, List.cons.injEq, Prod.mk.injEq] at h
      obtain ⟨⟨ht, hw⟩, hrest⟩ := h
      unfold weightFor
      simp only [List.find?_cons, ht]
      cases hpb : (b.indicator_type == key) with
      | true => simp [hw]
      | false =>
        have := ih hrest
        unfold weightFor at this
        exact this

theorem moodRuleScore_congr {L₁ L₂ : List MoodIndicator}
    (rules : List (String × RuleCond))
    (hv : ∀ r ∈ rules, indicatorValues L₁ r.1 = indicatorValues L₂ r.1)
    (hw : ∀ r ∈ rules, weightFor L₁ r.1 = weightFor L₂ r.1) :
    moodRuleScore L₁ rules = moodRuleScore L₂ rules := by
  unfold moodRuleScore
  suffices hgen : ∀ init : ℚ × ℚ,
      rules.foldl (fun acc r =>
        match indicatorValues L₁ r.1 with
        | none => acc
        | some v => (acc.1 + condScore r.2 v (weightFor L₁ r.1), acc.2 + weightFor L₁ r.1)) init =
      rules.foldl (fun acc r =>
        match indicatorValues L₂ r.1 with
        | none => acc
        | some v => (acc.1 + condScore r.2 v (weightFor L₂ r.1), acc.2 + weightFor L₂ r.1)) init by
    exact hgen (0, 0)
  induction rules with
  | nil => intro init; rfl
  | cons r rs ih =>
    intro init
    rw [List.foldl_cons, List.foldl_cons]
    have h1 := hv r (List.mem_cons_self r rs)
    have h2 := hw r (List.mem_cons_self r rs)
    simp only [h1, h2]
    exact ih (fun x hx => hv x (List.mem_cons_of_mem _ hx))
      (fun x hx => hw x (List.mem_cons_of_mem _ hx)) _

theorem strugglingBonus_le {L₁ L₂ : List MoodIndicator}
    (hcr : indicatorGetD L₁ "completion_rate" = indicatorGetD L₂ "completion_rate")
    (hcs : indicatorGetD L₁ "current_streak" = indicatorGetD L₂ "current_streak")
    (htp : indicatorGetD L₁ "today_pomodoros" = indicatorGetD L₂ "today_pomodoros")
    (hov : indicatorGetD L₁ "overdue_tasks" ≤ indicatorGetD L₂ "overdue_tasks") :
    calculateStrugglingBonus L₁ ≤ calculateStrugglingBonus L₂ := by
  unfold calculateStrugglingBonus
  rw [hcr, hcs, htp]
  have hstep : (if indicatorGetD L₁ "overdue_tasks" ≥ 2 then (0.4 : ℚ) else 0) ≤
      (if indicatorGetD L₂ "overdue_tasks" ≥ 2 then (0.4 : ℚ) else 0) := by
    split_ifs with h1 h2
    · exact le_refl _
    · exact absurd (le_trans h1 hov) h2
    · norm_num
    · exact le_refl _
  exact add_le_add_right (add_le_add_right (add_le_add_right hstep _) _) _

theorem struggling_entry_mono (pre post : List MoodIndicator) (w d₁ d₂ : _) (v₁ v₂ : ℚ)
    (hfresh : "overdue_tasks" ∉ (pre ++ post).map (fun i => i.indicator_type))
    (hle : v₁ ≤ v₂) :
    lookupScore (applyDetectionRules (pre ++ [⟨"overdue_tasks", v₁, w, d₁⟩] ++ post)) "struggling" ≤
    lookupScore (applyDetectionRules (pre ++ [⟨"overdue_tasks", v₂, w, d₂⟩] ++ post)) "struggling" := by
  set m₁ : MoodIndicator := ⟨"overdue_tasks", v₁, w, d₁⟩ with hm₁
  set m₂ : MoodIndicator := ⟨"overdue_tasks", v₂, w, d₂⟩ with hm₂
  have hfresh' : ∀ i ∈ pre ++ post, i.indicator_type ≠ "overdue_tasks" := by
    intro i hi heq
    exact hfresh (List.mem_map.mpr ⟨i, hi, heq⟩)
  have hpost : ∀ i ∈ post, i.indicator_type ≠ "overdue_tasks" := fun i hi =>
    hfresh' i (List.mem_append_right _ hi)
  -- indicator values at keys other than "overdue_tasks" agree between the two lists
  have hvother : ∀ key, key ≠ "overdue_tasks" →
      indicatorValues (pre ++ [m₁] ++ post) key = indicatorValues (pre ++ [m₂] ++ post) key := by
    intro key hkey
    rw [indicatorValues_middle pre post m₁ key (by simp [hm₁]; exact fun h => hkey h.symm),
        indicatorValues_middle pre post m₂ key (by simp [hm₂]; exact fun h => hkey h.symm)]
  have hw : ∀ key, weightFor (pre ++ [m₁] ++ post) key = weightFor (pre ++ [m₂] ++ post) key := by
    intro key
    apply weightFor_congr
    simp [hm₁, hm₂]
  have hrs : moodRuleScore (pre ++ [m₁] ++ post) strugglingRules =
      moodRuleScore (pre ++ [m₂] ++ post) strugglingRules := by
    apply moodRuleScore_congr
    · intro r hr
      apply hvother
      fin_cases hr <;> decide
    · intro r hr
      exact hw r.1
  have hbonus : calculateStrugglingBonus (pre ++ [m₁] ++ post) ≤
      calculateStrugglingBonus (pre ++ [m₂] ++ post) := by
    apply strugglingBonus_le
    · exact congrArg (fun o => o.getD 0) (hvother "completion_rate" (by decide))
    · exact congrArg (fun o => o.getD 0) (hvother "current_streak" (by decide))
    · exact congrArg (fun o => o.getD 0) (hvother "today_pomodoros" (by decide))
    · unfold indicatorGetD
      have e1 : indicatorValues (pre ++ [m₁] ++ post) "overdue_tasks" = some v₁ :=
        indicatorValues_middle_self pre post m₁ (by simpa [hm₁] using hpost)
      have e2 : indicatorValues (pre ++ [m₂] ++ post) "overdue_tasks" = some v₂ :=
        indicatorValues_middle_self pre post m₂ (by simpa [hm₂] using hpost)
      rw [e1, e2]
      exact hle
  rw [lookupScore_struggling, lookupScore_struggling, hrs]
  split_ifs with h
  · exact div_le_div_of_nonneg_right (add_le_add_left hbonus _)
      (le_trans zero_le_one (le_max_right _ 1))
  · exact le_refl _

theorem calculateStrugglingScore_mono (stats : TasksStats) (recent : List DayActivity)
    (streak : ℕ) (lm : Option LumiMemory) (o₁ o₂ : ℕ) (h : o₁ ≤ o₂) :
    calculateStrugglingScore { stats with overdue_tasks := o₁ } recent streak lm ≤
    calculateStrugglingScore { stats with overdue_tasks := o₂ } recent streak lm := by
  unfold calculateStrugglingScore
  have hstep : (if o₁ ≥ 2 then (0.3 : ℚ) + min ((o₁ : ℚ) * 0.1) 0.2 else 0) ≤
      (if o₂ ≥ 2 then (0.3 : ℚ) + min ((o₂ : ℚ) * 0.1) 0.2 else 0) := by
    split_ifs with h1 h2
    · have hm : (o₁ : ℚ) * 0.1 ≤ (o₂ : ℚ) * 0.1 := by
        apply mul_le_mul_of_nonneg_right _ (by norm_num)
        exact_mod_cast h
      exact add_le_add_left (min_le_min hm (le_refl _)) _
    · exact absurd (le_trans h1 h) h2
    · have hz : (0 : ℚ) ≤ min ((o₂ : ℚ) * 0.1) 0.2 := le_min (by positivity) (by norm_num)
      linarith
    · exact le_refl _
  exact min_le_min
    (add_le_add_right (add_le_add_right (add_le_add_right hstep _) _) _) (le_refl 1)

/-- Under Python truthiness, a missing or zero peak hour suppresses the
`timing_alignment` indicator. -/
theorem timingAlignmentInds_falsy {ctx : UserContext}
    (h : ctx.peak_hour = none ∨ ctx.peak_hour = some 0) (hour : ℕ) :
    timingAlignmentInds ctx hour = [] := by
  rcases h with h | h <;> simp [timingAlignmentInds, h]

/-- With a falsy peak hour, the extractor output does not depend on the
sampled wall-clock hour. -/
theorem calculateMoodIndicators_hour_indep {ctx : UserContext}
    (h : ctx.peak_hour = none ∨ ctx.peak_hour = some 0) (h₁ h₂ : ℕ) :
    calculateMoodIndicators ctx h₁ = calculateMoodIndicators ctx h₂ := by
  unfold calculateMoodIndicators
  rw [timingAlignmentInds_falsy h h₁, timingAlignmentInds_falsy h h₂]

/-- The C1 scenario snapshot: 8 tasks total, 1 completed, 4 overdue, streak 0,
no pomodoros today (and nothing else going on). -/
def scenarioStrugglingCtx : UserContext :=
  { tasks_stats := ⟨8, 1, 4, 0⟩, recent_activity := [], current_streak := 0,
    today_pomodoros := [], peak_hour := none, lumi_memory := none }

/-- C1: the claim says the snapshot `{total=8, completed=1, overdue=4,
streak=0, today_pomodoros=0}` classifies as `struggling` with confidence
strictly above 0.5 and non-empty recommendations. Evaluating
`detect_current_mood` on that snapshot shows the code instead returns the
default mood `encouraging` at confidence exactly 0.5 with an empty
recommendation list, because no key of `MOOD_DETECTION_RULES` matches any
emitted indicator type, so every mood score is zeroed (see the C2 theorem). -/
theorem scenario_struggling_evaluation_C1 :
    (detectCurrentMood scenarioStrugglingCtx 10 .noRow 0).current_mood = "encouraging" ∧
    (detectCurrentMood scenarioStrugglingCtx 10 .noRow 0).current_mood ≠ "struggling" ∧
    (detectCurrentMood scenarioStrugglingCtx 10 .noRow 0).confidence = 0.5 ∧
    ¬ (detectCurrentMood scenarioStrugglingCtx 10 .noRow 0).confidence > 0.5 ∧
    (detectCurrentMood scenarioStrugglingCtx 10 .noRow 0).recommendations = [] := by
  with_unfolding_all decide

/-- C2: every indicator type the extractor can produce is absent from the
rule-condition keys of every mood in `MOOD_DETECTION_RULES`; consequently
`_apply_detection_rules` returns a score of `0.0` for every mood (the rule
loop leaves `total_weight = 0`, so the bonus is discarded by the
`else 0.0` branch), and `detect_current_mood` — absent collaborator errors —
always returns mood `encouraging` with confidence `0.5`. -/
theorem rules_never_fire_C2 :
    (∀ (ctx : UserContext) (hour : ℕ), ∀ i ∈ calculateMoodIndicators ctx hour,
       i.indicator_type ∉ MOOD_DETECTION_RULES_keys) ∧
    (∀ (ctx : UserContext) (hour : ℕ),
       ∀ m ∈ applyDetectionRules (calculateMoodIndicators ctx hour), m.2 = 0) ∧
    (∀ (ctx : UserContext) (hour : ℕ) (prev : PrevMoodRead) (now : ℕ),
       (detectCurrentMood ctx hour prev now).current_mood = "encouraging" ∧
       (detectCurrentMood ctx hour prev now).confidence = 0.5) := by
  refine ⟨?_, ?_, detectCurrentMood_encouraging⟩
  · intro ctx hour i hi hk
    exact extractor_rule_keys_disjoint _ (calculateMoodIndicators_types hi) _ hk rfl
  · intro ctx hour m hm
    rw [applyDetectionRules_extractor] at hm
    obtain ⟨mr, _, hmr⟩ := List.mem_map.mp hm
    rw [← hmr]

/-- Witness for C2 at the concrete C1 snapshot. -/
theorem rules_never_fire_C2_witness :
    (("motivated", (0 : ℚ)) ∈
      applyDetectionRules (calculateMoodIndicators scenarioStrugglingCtx 10)) ∧
    (("motivated", (0 : ℚ)).2 = 0) :=
  ⟨by with_unfolding_all decide,
   rules_never_fire_C2.2.1 scenarioStrugglingCtx 10 _ (by with_unfolding_all decide)⟩

/-- An empty snapshot that carries a known peak productivity hour of 9. -/
def peakNineCtx : UserContext :=
  { tasks_stats := ⟨0, 0, 0, 0⟩, recent_activity := [], current_streak := 0,
    today_pomodoros := [], peak_hour := some 9, lumi_memory := none }

/-- C3 counterexample: the current hour is not part of the BehaviorSnapshot —
`_calculate_mood_indicators` samples `datetime.now().hour` itself (line 214) —
so two runs on an identical snapshot (identical rule table, identical
previous-mood read, identical timestamp) at wall-clock hours 9 and 21 return
different MoodResults: the `timing_alignment` indicator evaluates to 1 at the
peak hour and to 0 twelve hours away. -/
theorem hour_dependence_counterexample_C3 :
    detectCurrentMood peakNineCtx 9 .noRow 0 ≠ detectCurrentMood peakNineCtx 21 .noRow 0 := by
  with_unfolding_all decide

/-- C3 (amended): classification is a deterministic function of the snapshot,
the previous-mood read, the timestamp, and the sampled current hour — but the
hour is read from a live clock inside `_calculate_mood_indicators` (and inside
`_calculate_focused_score`), not passed in. When the snapshot carries no
truthy peak hour the result is independent of the sampled hour, in both the
mood detector and the personality engine's focused score. -/
theorem determinism_given_hour_C3 :
    (∀ (ctx : UserContext) (prev : PrevMoodRead) (now h₁ h₂ : ℕ),
       ctx.peak_hour = none ∨ ctx.peak_hour = some 0 →
       detectCurrentMood ctx h₁ prev now = detectCurrentMood ctx h₂ prev now) ∧
    (∀ (poms : List Pomodoro) (peak : Option ℕ) (stats : TasksStats) (h₁ h₂ : ℕ),
       peak = none ∨ peak = some 0 →
       calculateFocusedScore poms peak stats h₁ = calculateFocusedScore poms peak stats h₂) := by
  constructor
  · intro ctx prev now h₁ h₂ hfalsy
    simp only [detectCurrentMood]
    rw [calculateMoodIndicators_hour_indep hfalsy h₁ h₂]
  · rintro poms peak stats h₁ h₂ (rfl | rfl) <;> rfl

/-- Witness for C3 (amended) at the C1 snapshot, which has no peak hour. -/
theorem determinism_given_hour_C3_witness :
    (scenarioStrugglingCtx.peak_hour = none ∨ scenarioStrugglingCtx.peak_hour = some 0) ∧
    detectCurrentMood scenarioStrugglingCtx 9 .noRow 0 =
      detectCurrentMood scenarioStrugglingCtx 21 .noRow 0 :=
  ⟨Or.inl rfl, determinism_given_hour_C3.1 scenarioStrugglingCtx .noRow 0 9 21 (Or.inl rfl)⟩

/-- A hand-crafted indicator list (not producible by the extractor): a
low-weight `tasks_overdue` indicator makes `total_weight` positive while the
uncapped struggling bonus (0.4 + 0.3 + 0.2 + 0.2 = 1.1) is added on top. -/
def overfedIndicators : List MoodIndicator :=
  [⟨"tasks_overdue", 5, 0.1, ""⟩, ⟨"overdue_tasks", 5, 0.9, ""⟩,
   ⟨"completion_rate", 0.1, 0.8, ""⟩, ⟨"current_streak", 0, 0.7, ""⟩,
   ⟨"today_pomodoros", 0, 0.6, ""⟩]

/-- C4 counterexample: the per-mood bonus additions are not capped. For the
indicator list `overfedIndicators`, `_apply_detection_rules` assigns the
`struggling` mood the normalized score `1.2 > 1` — the Mood Scorer contract
"every entry of mood_scores lies in [0,1]" fails for arbitrary indicator
lists fed to the scorer. -/
theorem score_above_one_C4 :
    lookupScore (applyDetectionRules overfedIndicators) "struggling" = 1.2 ∧
    ¬ lookupScore (applyDetectionRules overfedIndicators) "struggling" ≤ 1 := by
  with_unfolding_all decide

/-- C4 (amended): for every BehaviorSnapshot — i.e. every indicator list the
extractor actually produces — the returned confidence lies in [0,1] and every
entry of `mood_scores` lies in [0,1]. (In fact every score is 0 and the
confidence is 0.5; the bonus additions are not capped, and only hold within
bounds on extractor outputs because the mismatched rule keys zero every
score.) -/
theorem score_bounds_C4 :
    ∀ (ctx : UserContext) (hour : ℕ) (prev : PrevMoodRead) (now : ℕ),
      (0 ≤ (detectCurrentMood ctx hour prev now).confidence ∧
       (detectCurrentMood ctx hour prev now).confidence ≤ 1) ∧
      ∀ m ∈ (detectCurrentMood ctx hour prev now).mood_scores, 0 ≤ m.2 ∧ m.2 ≤ 1 := by
  intro ctx hour prev now
  have hc := detectCurrentMood_encouraging ctx hour prev now
  constructor
  · rw [hc.2]; norm_num
  · intro m hm
    have hs : (detectCurrentMood ctx hour prev now).mood_scores =
        MOOD_DETECTION_RULES.map (fun mr => (mr.1, 0)) := by
      simp only [detectCurrentMood, applyDetectionRules_extractor]
    rw [hs] at hm
    obtain ⟨mr, _, hmr⟩ := List.mem_map.mp hm
    rw [← hmr]
    norm_num

/-- Witness for C4 (amended) at the concrete C1 snapshot. -/
theorem score_bounds_C4_witness :
    (("struggling", (0 : ℚ)) ∈ (detectCurrentMood scenarioStrugglingCtx 10 .noRow 0).mood_scores) ∧
    (0 ≤ (("struggling", (0 : ℚ)) : String × ℚ).2 ∧ (("struggling", (0 : ℚ)) : String × ℚ).2 ≤ 1) :=
  ⟨by with_unfolding_all decide,
   (score_bounds_C4 scenarioStrugglingCtx 10 .noRow 0).2 _ (by with_unfolding_all decide)⟩

/-- C5: increasing the value of the `overdue_tasks` indicator while holding
every other indicator fixed never decreases the computed `struggling` score —
both the normalized `struggling` entry of `_apply_detection_rules` (whose
bonus `_calculate_struggling_bonus` steps up at `overdue ≥ 2`) and the
personality engine's `_calculate_struggling_score` (monotone in
`tasks_stats["overdue_tasks"]`). -/
theorem struggling_monotone_C5 :
    (∀ (pre post : List MoodIndicator) (w : ℚ) (d₁ d₂ : String) (v₁ v₂ : ℚ),
       "overdue_tasks" ∉ (pre ++ post).map (fun i => i.indicator_type) → v₁ ≤ v₂ →
       lookupScore (applyDetectionRules (pre ++ [⟨"overdue_tasks", v₁, w, d₁⟩] ++ post))
           "struggling" ≤
       lookupScore (applyDetectionRules (pre ++ [⟨"overdue_tasks", v₂, w, d₂⟩] ++ post))
           "struggling") ∧
    (∀ (stats : TasksStats) (recent : List DayActivity) (streak : ℕ)
       (lm : Option LumiMemory) (o₁ o₂ : ℕ), o₁ ≤ o₂ →
       calculateStrugglingScore { stats with overdue_tasks := o₁ } recent streak lm ≤
       calculateStrugglingScore { stats with overdue_tasks := o₂ } recent streak lm) :=
  ⟨struggling_entry_mono, calculateStrugglingScore_mono⟩

/-- Witness for C5 at concrete overdue counts 1 ≤ 3 and 1 ≤ 4. -/
theorem struggling_monotone_C5_witness :
    ("overdue_tasks" ∉
      ((([] : List MoodIndicator)) ++ ([] : List MoodIndicator)).map
        (fun i => i.indicator_type)) ∧
    ((1 : ℚ) ≤ 3) ∧
    ((1 : ℕ) ≤ 4) ∧
    (lookupScore (applyDetectionRules
        (([] : List MoodIndicator) ++ [⟨"overdue_tasks", 1, 0.9, "a"⟩] ++ [])) "struggling" ≤
     lookupScore (applyDetectionRules
        (([] : List MoodIndicator) ++ [⟨"overdue_tasks", 3, 0.9, "b"⟩] ++ [])) "struggling") ∧
    (calculateStrugglingScore { (⟨8, 1, 0, 0⟩ : TasksStats) with overdue_tasks := 1 } [] 0 none ≤
     calculateStrugglingScore { (⟨8, 1, 0, 0⟩ : TasksStats) with overdue_tasks := 4 } [] 0 none) :=
  ⟨by decide, by norm_num, by decide,
   struggling_monotone_C5.1 [] [] 0.9 "a" "b" 1 3 (by decide) (by norm_num),
   struggling_monotone_C5.2 ⟨8, 1, 0, 0⟩ [] 0 none 1 4 (by decide)⟩

/-- C6: the transition result is `None` when the previous-mood read fails,
when no prior persisted mood exists, and when the prior mood equals the new
mood; otherwise a `MoodTransition` is created with confidence exactly `0.7`
whose trigger factors come from the `_identify_transition_triggers` lookup of
known `(from, to)` pairs, and pairs outside that lookup (and not into
`returning`) receive an empty trigger list. -/
theorem transition_rule_C6 :
    (∀ (current : String) (now : ℕ), analyzeMoodTransition .readError current now = none) ∧
    (∀ (current : String) (now : ℕ), analyzeMoodTransition .noRow current now = none) ∧
    (∀ (prev current : String) (now : ℕ), prev = current →
       analyzeMoodTransition (.row prev) current now = none) ∧
    (∀ (prev current : String) (now : ℕ), prev ≠ current →
       analyzeMoodTransition (.row prev) current now =
         some ⟨prev, current, now, identifyTransitionTriggers prev current, 0.7⟩) ∧
    (∀ f t : String,
       ¬(f = "motivated" ∧ t = "overwhelmed") → ¬(f = "struggling" ∧ t = "motivated") →
       ¬(f = "focused" ∧ t = "celebrating") → t ≠ "returning" →
       identifyTransitionTriggers f t = []) := by
  refine ⟨fun _ _ => rfl, fun _ _ => rfl, ?_, ?_, ?_⟩
  · intro prev current now h
    subst h
    simp [analyzeMoodTransition]
  · intro prev current now h
    simp [analyzeMoodTransition, identifyTransitionTriggers, h]
  · intro f t h1 h2 h3 h4
    simp only [identifyTransitionTriggers, analyzeMoodTransition.identifyTransitionTriggersAux,
      Bool.and_eq_true, beq_iff_eq]
    rw [if_neg h1, if_neg h2, if_neg h3, if_neg h4]

/-- Witness for C6: the known pair motivated→overwhelmed yields its trigger at
confidence 0.7, and the unknown pair overwhelmed→focused yields no trigger. -/
theorem transition_rule_C6_witness :
    ("motivated" ≠ "overwhelmed") ∧
    analyzeMoodTransition (.row "motivated") "overwhelmed" 5 =
      some ⟨"motivated", "overwhelmed", 5, ["Aumento na carga de trabalho"], 0.7⟩ ∧
    (¬("overwhelmed" = "motivated" ∧ "focused" = "overwhelmed")) ∧
    identifyTransitionTriggers "overwhelmed" "focused" = [] :=
  ⟨by decide,
   by rw [transition_rule_C6.2.2.2.1 "motivated" "overwhelmed" 5 (by decide)]; rfl,
   by decide,
   transition_rule_C6.2.2.2.2 "overwhelmed" "focused" (by decide) (by decide) (by decide)
     (by decide)⟩

/-- C7: evaluation of `analyze_user_mood`'s cache. First conjunct: starting
from an empty cache, a second call for the same user in the same minute
bucket returns the first call's result from the cache without recomputing.
Second conjunct — the failing input for the claim's 30-minute expiry: an
entry stored exactly 24 hours earlier shares the `%H_%M` bucket key and
passes the staleness test, because
`(datetime.now() - cached["timestamp"]).seconds` is the sub-day seconds
component (here 0), not the total age; the 86400-second-old result is
returned even though 86400 > 1800. -/
theorem cache_evaluation_C7 :
    ((analyzeUserMood [] "user-1" scenarioStrugglingCtx 60).2.2 = true ∧
     (analyzeUserMood (analyzeUserMood [] "user-1" scenarioStrugglingCtx 60).2.1
        "user-1" scenarioStrugglingCtx 90).2.2 = false ∧
     (analyzeUserMood (analyzeUserMood [] "user-1" scenarioStrugglingCtx 60).2.1
        "user-1" scenarioStrugglingCtx 90).1 =
       (analyzeUserMood [] "user-1" scenarioStrugglingCtx 60).1) ∧
    (analyzeUserMood [(("user-1", 0), ⟨getDefaultMood, 0⟩)] "user-1" scenarioStrugglingCtx 86400 =
       (getDefaultMood, [(("user-1", 0), ⟨getDefaultMood, 0⟩)], false) ∧
     86400 - 0 > 1800) := by
  with_unfolding_all decide

/-- A three-sample mood history, fewer than the claimed five-sample minimum. -/
def shortMoodHistory : List MoodHistoryRow :=
  [⟨"motivated", 0⟩, ⟨"struggling", 60⟩, ⟨"focused", 120⟩]

/-- C8 counterexample: a history query yielding 3 (< 5) samples does not
return the structured insufficient-data result — `analyze_mood_history` only
short-circuits on an empty history, and with any rows present it calls the
undefined `_analyze_mood_patterns`, raising `AttributeError` into the generic
`except` handler. -/
theorem history_short_not_insufficient_C8 :
    shortMoodHistory.length < 5 ∧
    analyzeMoodHistory shortMoodHistory 30 ≠ .insufficientData := by decide

/-- C8 (amended): the structured "insufficient data" result is returned
exactly when the history query yields zero samples; any non-empty history
instead ends in the generic error dict (the missing helper methods raise,
the handler catches) — in neither case does an exception escape or a
stability score get fabricated. -/
theorem history_insufficient_iff_empty_C8 :
    ∀ (history : List MoodHistoryRow) (days : ℕ),
      analyzeMoodHistory history days = .insufficientData ↔ history = [] := by
  intro history days
  unfold analyzeMoodHistory
  cases history <;> simp

/-- Two indicators of weight at least 0.7, as the C1-style snapshots emit. -/
def highWeightIndicators : List MoodIndicator :=
  [⟨"completion_rate", 1, 0.8, "d1"⟩, ⟨"overdue_tasks", 2, 0.9, "d2"⟩]

/-- C9 counterexample: with a known mood, two indicators of weight ≥ 0.7 and a
present transition, `_generate_mood_insights` returns 4 insight strings — the
claimed bound of 3 fails (only the recommendation list is truncated with
`[:3]`; the insight list is not). -/
theorem four_insights_C9 :
    (generateMoodInsights "motivated" highWeightIndicators
        (some ⟨"focused", "motivated", 0, [], 0.7⟩)).length = 4 ∧
    ¬ (generateMoodInsights "motivated" highWeightIndicators
        (some ⟨"focused", "motivated", 0, [], 0.7⟩)).length ≤ 3 := by
  with_unfolding_all decide

/-- C9 (amended): the insight generator returns at most 4 strings (one mood
template line, the descriptions of the first two indicators of weight ≥ 0.7,
and one transition line) — at most 3 when no transition is present — and the
recommendation generator returns at most 3 strings; both are total functions
of their inputs. -/
theorem insight_bounds_C9 :
    ∀ (mood : String) (inds : List MoodIndicator) (tr : Option MoodTransitionRec),
      (generateMoodInsights mood inds tr).length ≤ 4 ∧
      (tr = none → (generateMoodInsights mood inds tr).length ≤ 3) ∧
      (generateMoodRecommendations mood inds).length ≤ 3 := by
  intro mood inds tr
  have hline : (moodInsightLine mood).length ≤ 1 := by
    unfold moodInsightLine
    split_ifs <;> simp
  have htake : (((inds.filter (fun i => i.weight ≥ 0.7)).take 2).map
      (fun i => i.description)).length ≤ 2 := by
    rw [List.length_map]
    exact List.length_take_le _ _
  refine ⟨?_, ?_, ?_⟩
  · unfold generateMoodInsights
    rw [List.length_append, List.length_append]
    have htr : (match tr with
        | some t => ["Transição de " ++ t.from_mood ++ " para " ++ t.to_mood]
        | none => ([] : List String)).length ≤ 1 := by
      cases tr <;> simp
    omega
  · intro h
    subst h
    unfold generateMoodInsights
    rw [List.length_append, List.length_append]
    simp only [List.length_nil]
    omega
  · unfold generateMoodRecommendations
    exact List.length_take_le _ _

/-- Witness for C9 (amended): with no transition, the same mood and
indicators yield at most 3 insights. -/
theorem insight_bounds_C9_witness :
    ((none : Option MoodTransitionRec) = none) ∧
    (generateMoodInsights "motivated" highWeightIndicators none).length ≤ 3 :=
  ⟨rfl, (insight_bounds_C9 "motivated" highWeightIndicators none).2.1 rfl⟩

/-- A snapshot whose known peak productivity hour is 0 (midnight). -/
def peakZeroCtx : UserContext :=
  { tasks_stats := ⟨5, 2, 1, 1⟩, recent_activity := [], current_streak := 1,
    today_pomodoros := [], peak_hour := some 0, lumi_memory := none }

/-- C10 counterexample: the claim includes peak hour 0 among the known peak
hours, but the source's `if peak_hour:` treats 0 as falsy, so a snapshot with
peak hour 0 gets no `timing_alignment` indicator. -/
theorem timing_omitted_at_midnight_C10 :
    peakZeroCtx.peak_hour = some 0 ∧
    ∀ i ∈ calculateMoodIndicators peakZeroCtx 10, i.indicator_type ≠ "timing_alignment" := by
  with_unfolding_all decide

/-- C10 (amended): when the peak productivity hour is known and nonzero
(1-23), the extractor emits a `timing_alignment` indicator of weight 0.3 with
value `1 - |current_hour - peak_hour| / 12`; when the peak hour is unknown —
or 0, which Python truthiness conflates with unknown — the indicator is
omitted. -/
theorem timing_alignment_rule_C10 :
    (∀ (ctx : UserContext) (hour peak : ℕ), ctx.peak_hour = some peak → peak ≠ 0 →
       ∃ d : String,
         (⟨"timing_alignment", 1 - |(hour : ℚ) - (peak : ℚ)| / 12, 0.3, d⟩ : MoodIndicator) ∈
           calculateMoodIndicators ctx hour) ∧
    (∀ (ctx : UserContext) (hour : ℕ), ctx.peak_hour = none ∨ ctx.peak_hour = some 0 →
       ∀ i ∈ calculateMoodIndicators ctx hour, i.indicator_type ≠ "timing_alignment") := by
  constructor
  · intro ctx hour peak hp h0
    have hd : timingAlignmentInds ctx hour =
        [⟨"timing_alignment", 1 - |(hour : ℚ) - (peak : ℚ)| / 12, 0.3,
          "Alinhamento com horário de pico: " ++
            toString (1 - |(hour : ℚ) - (peak : ℚ)| / 12) ++ toString ""⟩] := by
      unfold timingAlignmentInds
      rw [hp]
      dsimp only
      rw [if_neg h0]
      rfl
    refine ⟨"Alinhamento com horário de pico: " ++
      toString (1 - |(hour : ℚ) - (peak : ℚ)| / 12) ++ toString "", ?_⟩
    unfold calculateMoodIndicators
    rw [List.mem_append]
    right
    rw [hd]
    exact List.mem_singleton_self _
  · intro ctx hour hfalsy i hi
    unfold calculateMoodIndicators at hi
    rw [timingAlignmentInds_falsy hfalsy] at hi
    simp only [List.mem_append, List.not_mem_nil, or_false] at hi
    rcases hi with (((((h | h) | h) | h) | h) | h) | h
    · rw [completionRateInds_types h]; decide
    · rw [overdueInds_types h]; decide
    · rw [streakInds_types h]; decide
    · rw [todayPomodorosInds_types h]; decide
    · rw [activityTrendInds_types h]; decide
    · rw [focusQualityInds_types h]; decide
    · rw [overwhelmInds_types h]; decide

/-- Witness for C10 (amended) at peak hour 9, current hour 10. -/
theorem timing_alignment_rule_C10_witness :
    (peakNineCtx.peak_hour = some 9) ∧ ((9 : ℕ) ≠ 0) ∧
    ∃ d : String,
      (⟨"timing_alignment", 1 - |((10 : ℕ) : ℚ) - ((9 : ℕ) : ℚ)| / 12, 0.3, d⟩ : MoodIndicator) ∈
        calculateMoodIndicators peakNineCtx 10 :=
  ⟨rfl, by decide, timing_alignment_rule_C10.1 peakNineCtx 10 9 rfl (by decide)⟩
